import Mathlib

/-!
# Thread lifecycle and one-time initialisation of the FreeBSD kernel VCOS backend

A shallow embedding of `interface/vcos/freebsdkernel/vcos_freebsdkernel.c`:
`vcos_thread_wrapper`, `vcos_thread_create`, `vcos_thread_join`, `vcos_thread_exit`,
`vcos_global_lock`, `vcos_global_unlock` and `vcos_once`.

The C functions act on one thread control block, one output cell `*pData`, the
once flag, the file-static mutex `vcos_mtx` and the kernel primitives they call.
All of it is gathered in `World`; a C function is a function from a `World` to a
result `Res`, which is either a normal return or the place where execution
stopped (failed assertion that halts, access through `NULL`, a wait that never
returns, `panic`).  Every call that leaves the file is appended to `World.trace`.
-/

namespace Vcos

/-! ## Values -/

/-- Data pointers (`void *`, `struct proc *`) as addresses; `0` is `NULL`. -/
abbrev Ptr := Nat

/-- C strings, without their terminating NUL. -/
abbrev CString := List Char

/-- Status codes of `VCOS_STATUS_T`.  The enumeration is declared in a header that is
not part of the source file; the two enumerators the file names are constructors and
every other enumerator is `other code`. -/
inductive VCOS_STATUS_T where
  | VCOS_SUCCESS
  | VCOS_EINVAL
  | other (code : Nat)
  deriving DecidableEq, Repr

open VCOS_STATUS_T

/-- A pointer to the one object of its kind in the `World` (the thread control block,
or the cell `*pData`), or `NULL`. -/
inductive Ref where
  | null
  | target
  deriving DecidableEq, Repr

/-- The two semaphores embedded in a thread control block: `thread->wait` (completion)
and `thread->suspend`. -/
inductive SemField where
  | wait
  | suspend
  deriving DecidableEq, Repr

/-- What one call of a thread function does as far as this file can see: the payloads
it passes to `vcos_thread_exit`, in order, and the value it leaves as its return
value. -/
structure EntryRun where
  exits : List Ptr
  ret : Ptr

/-- A thread function behind a `VCOS_THREAD_ENTRY_FN_T` pointer.  The trampoline calls
the same pointer either as `entry(arg)` or, after the cast to `LEGACY_ENTRY_FN_T`, as
`fn(i, arg)`; `legacy i arg` describes the second kind of call, its `ret` being what
the function would hand back if it were read as a modern entry (a `void` call
discards it). -/
structure VCOS_THREAD_ENTRY_FN_T where
  modern : Ptr → EntryRun
  legacy : Int → Ptr → EntryRun

/-- Thread attributes, `VCOS_THREAD_ATTR_T`, in the field order of the initialiser of
`default_attrs`: the legacy flag, then the stack size. -/
structure VCOS_THREAD_ATTR_T where
  legacy : Int
  stacksz : Nat
  deriving DecidableEq, Repr

def VCOS_DEFAULT_STACK_SIZE : Nat := 4096

def default_attrs : VCOS_THREAD_ATTR_T := ⟨0, VCOS_DEFAULT_STACK_SIZE⟩

/-- A live timer object, as left by `vcos_timer_create(&timer, name, pfn, cxt)`. -/
structure Timer where
  name : CString
  pfn : Ptr
  cxt : Ptr
  deriving DecidableEq, Repr

/-- The thread control block `VCOS_THREAD_T`, restricted to the fields the file reads or
writes.  A semaphore field is `none` while no semaphore lives in it and `some n` for a
live semaphore of count `n`; `timer` is `thread->_timer.timer`. -/
structure VCOS_THREAD_T where
  magic : Nat
  name : CString
  legacy : Int
  entry : Option VCOS_THREAD_ENTRY_FN_T
  arg : Ptr
  exit_data : Ptr
  proc : Ptr
  joined : Int
  stack : Ptr
  wait : Option Nat
  suspend : Option Nat
  timer : Option Timer

/-- The storage after `memset(thread, 0, sizeof(*thread))`. -/
def VCOS_THREAD_T.zero : VCOS_THREAD_T :=
  { magic := 0, name := [], legacy := 0, entry := none, arg := 0, exit_data := 0,
    proc := 0, joined := 0, stack := 0, wait := none, suspend := none, timer := none }

/-- Calls that leave the file, and the stores into `thread->exit_data`, in the order
in which they happen. -/
inductive Effect where
  | add_thread
  | tls_thread_register
  | call_entry (legacy_int : Option Int) (arg : Ptr)
  | entry_returned (ret : Ptr)
  | store_exit_data (v : Ptr)
  | thread_exit_store (v : Ptr)
  | remove_thread
  | semaphore_create (s : SemField) (st : VCOS_STATUS_T)
  | semaphore_wait (s : SemField)
  | semaphore_post (s : SemField)
  | semaphore_delete (s : SemField)
  | timer_create (name : CString) (pfn cxt : Ptr)
  | kproc_create (name : CString) (rc : Int)
  | free (p : Ptr)
  | mtx_lock
  | mtx_unlock
  | init_routine (lock_held : Bool)
  deriving DecidableEq, Repr

/-- Everything the functions of the file act on. -/
structure World where
  /-- The storage `thread` points to. -/
  thread : VCOS_THREAD_T
  /-- The live-thread registry: what `vcos_thread_current()` returns. -/
  current : Ref
  /-- The cell `*pData` of the joiner. -/
  pData : Ptr
  /-- The flag `*once_control`. -/
  once_control : Int
  /-- Whether `vcos_mtx` is held. -/
  vcos_mtx : Bool
  /-- The state `init_routine` works on. -/
  user : Nat
  trace : List Effect

/-- What the headers and the kernel fix for one build and one run: constants, macros and
results of kernel calls that the source file uses but does not define. -/
structure Config where
  /-- The sentinel `VCOS_THREAD_MAGIC`. -/
  VCOS_THREAD_MAGIC : Nat
  /-- The array size `sizeof(thread->name)`. -/
  name_size : Nat
  /-- Whether a failed `vcos_assert` stops execution (checking build) or is without
  effect on control flow (assertions compiled out, or logged only). -/
  asserts_halt : Bool
  /-- Whether `VCOS_WANT_TLS_EMULATION` is defined. -/
  VCOS_WANT_TLS_EMULATION : Bool
  /-- The status `vcos_semaphore_create` returns for each semaphore of the block. -/
  semaphore_create : SemField → VCOS_STATUS_T
  /-- The return value of `kproc_create`. -/
  kproc_create : Int
  /-- The process `kproc_create` stores through its `newp` argument. -/
  newp : Ptr
  /-- The kernel's `curproc` while the trampoline runs. -/
  curproc : Ptr

/-! ## Results and sequencing -/

/-- Why a function did not return. -/
inductive Stop where
  | assert_failed
  | null_deref
  | blocked
  | panic
  | misuse
  deriving DecidableEq, Repr

/-- The result of running a function: returned `a` in world `w`, or stopped in `w`. -/
inductive Res (α : Type) where
  | ok (a : α) (w : World)
  | stop (why : Stop) (w : World)

/-- The world in which a run ended, returned or not. -/
def Res.world {α : Type} : Res α → World
  | .ok _ w => w
  | .stop _ w => w

/-- The value returned, if the run returned. -/
def Res.value {α : Type} : Res α → Option α
  | .ok a _ => some a
  | .stop _ _ => none

/-- The reason the run stopped, if it did. -/
def Res.stopped {α : Type} : Res α → Option Stop
  | .ok _ _ => none
  | .stop r _ => some r

/-- A C function body: a computation on the world. -/
def M (α : Type) : Type := World → Res α

def M.pure {α : Type} (a : α) : M α := fun w => Res.ok a w

def M.bind {α β : Type} (m : M α) (f : α → M β) : M β := fun w =>
  match m w with
  | .ok a w1 => f a w1
  | .stop r w1 => .stop r w1

instance : Monad M where
  pure := M.pure
  bind := M.bind

/-- Run `m` in `w`. -/
def M.run {α : Type} (m : M α) (w : World) : Res α := m w

def getWorld : M World := fun w => .ok w w

def getThread : M VCOS_THREAD_T := fun w => .ok w.thread w

def modifyThread (f : VCOS_THREAD_T → VCOS_THREAD_T) : M Unit := fun w =>
  .ok () { w with thread := f w.thread }

def emit (e : Effect) : M Unit := fun w => .ok () { w with trace := w.trace ++ [e] }

def halt {α : Type} (why : Stop) : M α := fun w => .stop why w

/-! ## Primitives the file calls but does not define -/

/-- Modelled from the spec: the `vcos_assert` of the missing header, an assertion-style
check whose behaviour on a violation is implementation-defined (may abort).  A check
that holds does nothing; one that fails stops the run when `asserts_halt` and does
nothing otherwise. -/
def vcos_assert (cfg : Config) (cond : Bool) : M Unit := fun w =>
  if cond then .ok () w
  else if cfg.asserts_halt then .stop .assert_failed w
  else .ok () w

/-- The C library's `strlcpy(dst, src, size)` on the string held in `dst`: reading
through a `NULL` source is an invalid access; otherwise at most `size - 1` characters
are copied and terminated, and nothing is written when `size` is `0`. -/
def strlcpy (dst : CString) (src : Option CString) (size : Nat) : M CString :=
  match src with
  | none => halt .null_deref
  | some s => pure (if size = 0 then dst else s.take (size - 1))

def getSem (s : SemField) (t : VCOS_THREAD_T) : Option Nat :=
  match s with
  | .wait => t.wait
  | .suspend => t.suspend

def setSem (s : SemField) (v : Option Nat) (t : VCOS_THREAD_T) : VCOS_THREAD_T :=
  match s with
  | .wait => { t with wait := v }
  | .suspend => { t with suspend := v }

/-- Modelled from the spec: the semaphore primitive `sem_create(initial_count)` of the
missing platform header, which yields a live semaphore or an error status. -/
def vcos_semaphore_create (cfg : Config) (s : SemField) (initial_count : Nat) :
    M VCOS_STATUS_T := do
  let st := cfg.semaphore_create s
  emit (.semaphore_create s st)
  if st = VCOS_SUCCESS then
    modifyThread (setSem s (some initial_count))
    pure st
  else
    pure st

/-- Modelled from the spec: the blocking `sem_wait(handle)` of the missing platform
header.  A positive count is decremented; on a count of `0` the caller stays
suspended, which in a sequential run means the call never returns. -/
def vcos_semaphore_wait (s : SemField) : M Unit := do
  emit (.semaphore_wait s)
  let t ← getThread
  match getSem s t with
  | none => halt .misuse
  | some 0 => halt .blocked
  | some (n + 1) => modifyThread (setSem s (some n))

/-- Modelled from the spec: `sem_post(handle)` of the missing platform header. -/
def vcos_semaphore_post (s : SemField) : M Unit := do
  emit (.semaphore_post s)
  let t ← getThread
  match getSem s t with
  | none => halt .misuse
  | some n => modifyThread (setSem s (some (n + 1)))

/-- Modelled from the spec: `sem_delete(handle)` of the missing platform header. -/
def vcos_semaphore_delete (s : SemField) : M Unit := do
  emit (.semaphore_delete s)
  let t ← getThread
  match getSem s t with
  | none => halt .misuse
  | some _ => modifyThread (setSem s none)

/-- Modelled from the spec: `timer_create(name, callback|null, arg)` of the missing
platform header, applied to `thread->_timer.timer`. -/
def vcos_timer_create (name : CString) (pfn cxt : Ptr) : M Unit := do
  emit (.timer_create name pfn cxt)
  modifyThread fun t => { t with timer := some ⟨name, pfn, cxt⟩ }

/-- Modelled from the spec: `register(tcb)` of the live-thread registry, defined outside
the file. -/
def vcos_add_thread : M Unit := do
  emit .add_thread
  fun w => .ok () { w with current := .target }

/-- Modelled from the spec: `deregister(tcb)` of the live-thread registry, defined
outside the file. -/
def vcos_remove_thread : M Unit := do
  emit .remove_thread
  fun w => .ok () { w with current := .null }

/-- Modelled from the spec: `current() → tcb` of the live-thread registry, defined
outside the file. -/
def vcos_thread_current : M Ref := fun w => .ok w.current w

/-- The TLS registration of the missing header, an external collaborator: only the
call is recorded. -/
def vcos_tls_thread_register : M Unit := emit .tls_thread_register

/-- The bulk allocator's `vcos_free`: only the call is recorded. -/
def vcos_free (p : Ptr) : M Unit := emit (.free p)

/-- The kernel's `kproc_create`, which returns `cfg.kproc_create` and on success has
stored `cfg.newp` through `newp`. -/
def kproc_create (cfg : Config) (name : CString) : M Int := do
  emit (.kproc_create name cfg.kproc_create)
  pure cfg.kproc_create

/-- The kernel's `mtx_lock(&vcos_mtx)` on the non-recursive mutex: in a sequential run
a held mutex is never released, so the call does not return. -/
def mtx_lock : M Unit := do
  emit .mtx_lock
  fun w => if w.vcos_mtx then .stop .blocked w else .ok () { w with vcos_mtx := true }

/-- The kernel's `mtx_unlock(&vcos_mtx)`. -/
def mtx_unlock : M Unit := do
  emit .mtx_unlock
  fun w => if w.vcos_mtx then .ok () { w with vcos_mtx := false } else .stop .misuse w

/-! ## The functions of the file -/

def vcos_global_lock : M Unit := mtx_lock

def vcos_global_unlock : M Unit := mtx_unlock

/-- The function `vcos_thread_exit(arg)`, lines 301-309: look up the current thread,
assert it, and store `arg` into its `exit_data`; the function returns to its caller. -/
def vcos_thread_exit (cfg : Config) (arg : Ptr) : M Unit := do
  let thread ← vcos_thread_current
  vcos_assert cfg (thread != .null)
  match thread with
  | .null => halt .null_deref
  | .target =>
    let t ← getThread
    vcos_assert cfg (t.magic == cfg.VCOS_THREAD_MAGIC)
    emit (.thread_exit_store arg)
    modifyThread fun t => { t with exit_data := arg }

/-- The body of a thread function, run on its own thread: its calls of
`vcos_thread_exit`, one after the other. -/
def run_exits (cfg : Config) : List Ptr → M Unit
  | [] => pure ()
  | p :: ps => do
    vcos_thread_exit cfg p
    run_exits cfg ps

/-- A call through the function pointer `fn`: as `fn(arg)` when `legacy_int` is `none`,
as `((LEGACY_ENTRY_FN_T)fn)(i, arg)` when it is `some i`.  The value is what the
function leaves as its return value. -/
def call_entry (cfg : Config) (fn : Option VCOS_THREAD_ENTRY_FN_T)
    (legacy_int : Option Int) (arg : Ptr) : M Ptr :=
  match fn with
  | none => halt .null_deref
  | some f => do
    emit (.call_entry legacy_int arg)
    let run := match legacy_int with
      | none => f.modern arg
      | some i => f.legacy i arg
    run_exits cfg run.exits
    emit (.entry_returned run.ret)
    pure run.ret

/-- The trampoline `vcos_thread_wrapper(arg)`, lines 56-89, with `thread = arg`. -/
def vcos_thread_wrapper (cfg : Config) : M Unit := do
  let t ← getThread
  vcos_assert cfg (t.magic == cfg.VCOS_THREAD_MAGIC)
  modifyThread fun t => { t with proc := cfg.curproc }
  vcos_add_thread
  if cfg.VCOS_WANT_TLS_EMULATION then vcos_tls_thread_register else pure ()
  let t ← getThread
  let ret ←
    if t.legacy ≠ 0 then do
      let _ ← call_entry cfg t.entry (some 0) t.arg
      pure 0
    else
      call_entry cfg t.entry none t.arg
  emit (.store_exit_data ret)
  modifyThread fun t => { t with exit_data := ret }
  vcos_remove_thread
  vcos_semaphore_post .wait

/-- The function `vcos_thread_create(thread, name, attrs, entry, arg)`, lines 91-133, on
the storage `thread` points to. -/
def vcos_thread_create (cfg : Config) (name : Option CString)
    (attrs : Option VCOS_THREAD_ATTR_T) (entry : Option VCOS_THREAD_ENTRY_FN_T)
    (arg : Ptr) : M VCOS_STATUS_T := do
  modifyThread fun _ => VCOS_THREAD_T.zero
  modifyThread fun t => { t with magic := cfg.VCOS_THREAD_MAGIC }
  let t ← getThread
  let copied ← strlcpy t.name name cfg.name_size
  modifyThread fun t => { t with name := copied }
  modifyThread fun t =>
    { t with legacy := match attrs with
                       | some a => a.legacy
                       | none => 0 }
  modifyThread fun t => { t with entry := entry }
  modifyThread fun t => { t with arg := arg }
  match name with
  | none => do
    vcos_assert cfg false
    pure VCOS_EINVAL
  | some n => do
    let st ← vcos_semaphore_create cfg .wait 0
    if st ≠ VCOS_SUCCESS then
      pure st
    else do
      let st ← vcos_semaphore_create cfg .suspend 0
      if st ≠ VCOS_SUCCESS then
        pure st
      else do
        let t ← getThread
        vcos_timer_create t.name 0 0
        let rc ← kproc_create cfg n
        if rc ≠ 0 then
          halt .panic
        else do
          modifyThread fun t => { t with proc := cfg.newp }
          pure VCOS_SUCCESS

/-- The function `vcos_thread_join(thread, pData)`, lines 135-157. -/
def vcos_thread_join (cfg : Config) (thread : Ref) (pData : Ref) : M Unit := do
  vcos_assert cfg (thread != .null)
  match thread with
  | .null => halt .null_deref
  | .target =>
    let t ← getThread
    vcos_assert cfg (t.magic == cfg.VCOS_THREAD_MAGIC)
    modifyThread fun t => { t with joined := 1 }
    vcos_semaphore_wait .wait
    let t ← getThread
    (match pData with
     | .null => pure ()
     | .target => fun w => .ok () { w with pData := t.exit_data })
    (if t.stack ≠ 0 then vcos_free t.stack else pure ())
    vcos_semaphore_delete .wait
    vcos_semaphore_delete .suspend

/-- The function `vcos_once(once_control, init_routine)`, lines 496-517; `init_routine`
acts on the user state. -/
def vcos_once (init_routine : Nat → Nat) : M VCOS_STATUS_T := do
  let w ← getWorld
  (if w.once_control = 0 then do
    vcos_global_lock
    let w ← getWorld
    (if w.once_control = 0 then do
      emit (.init_routine w.vcos_mtx)
      (fun w => .ok () { w with user := init_routine w.user })
      (fun w => .ok () { w with once_control := 1 })
    else
      pure ())
    vcos_global_unlock
  else
    pure ())
  pure VCOS_SUCCESS

/-- The statuses of `n` successive calls `vcos_once(once_control, init_routine)`. -/
def once_calls (init_routine : Nat → Nat) : Nat → M (List VCOS_STATUS_T)
  | 0 => pure []
  | n + 1 => do
    let st ← vcos_once init_routine
    let rest ← once_calls init_routine n
    pure (st :: rest)

/-- A create, the trampoline run to completion, then a join, one after the other. -/
def create_run_join (cfg : Config) (name : Option CString)
    (attrs : Option VCOS_THREAD_ATTR_T) (entry : Option VCOS_THREAD_ENTRY_FN_T)
    (arg : Ptr) (pData : Ref) : M VCOS_STATUS_T := do
  let st ← vcos_thread_create cfg name attrs entry arg
  vcos_thread_wrapper cfg
  vcos_thread_join cfg .target pData
  pure st

/-! ## Vocabulary of the statements -/

/-- The run of the thread function that the trampoline starts for the block `t`: the
legacy call `fn(0, arg)` when `t.legacy` is set, the modern call `entry(arg)`
otherwise. -/
def entry_run (t : VCOS_THREAD_T) (f : VCOS_THREAD_ENTRY_FN_T) : EntryRun :=
  if t.legacy ≠ 0 then f.legacy 0 t.arg else f.modern t.arg

/-- The number of posts of the completion semaphore in a trace. -/
def posts (tr : List Effect) : Nat := tr.count (Effect.semaphore_post .wait)

/-- The computation `m` adds no post of the completion semaphore to the trace, however
it ends. -/
structure NoPost {α : Type} (m : M α) : Prop where
  keeps : ∀ w, posts (m w).world.trace = posts w.trace

/-- The name `thread->name` holds after `strlcpy(thread->name, name, sizeof(thread->name))`
on zeroed storage. -/
def stored_name (cfg : Config) (n : CString) : CString :=
  if cfg.name_size = 0 then [] else n.take (cfg.name_size - 1)

/-! ## Concrete inputs -/

/-- A build with halting assertions, a 16-byte name array, no TLS emulation, and a
kernel in which semaphore and thread creation succeed. -/
def sampleConfig : Config :=
  { VCOS_THREAD_MAGIC := 0x56436a74
    name_size := 16
    asserts_halt := true
    VCOS_WANT_TLS_EMULATION := false
    semaphore_create := fun _ => VCOS_SUCCESS
    kproc_create := 0
    newp := 0x1000
    curproc := 0x1000 }

/-- The build of `sampleConfig` in which a failed assertion does not stop the run. -/
def releaseConfig : Config := { sampleConfig with asserts_halt := false }

/-- A kernel in which the creation of semaphore `s` fails with `st`. -/
def failingConfig (s : SemField) (st : VCOS_STATUS_T) : Config :=
  { sampleConfig with
    semaphore_create := fun x => if x = s then st else VCOS_SUCCESS }

/-- Zeroed thread storage, nothing registered, mutex free, nothing done yet. -/
def emptyWorld : World :=
  { thread := VCOS_THREAD_T.zero, current := .null, pData := 0, once_control := 0,
    vcos_mtx := false, user := 0, trace := [] }

/-- The thread function that calls `vcos_thread_exit` on each of `payloads` and then
returns `r`. -/
def exits_then_returns (payloads : List Ptr) (r : Ptr) : VCOS_THREAD_ENTRY_FN_T :=
  { modern := fun _ => ⟨payloads, r⟩, legacy := fun _ _ => ⟨payloads, r⟩ }

/-- The thread name `"worker"`. -/
def workerName : CString := ['w', 'o', 'r', 'k', 'e', 'r']

/-- The timer name `"TaskTimer"` that `_vcos_task_timer_set` uses. -/
def taskTimerName : CString := ['T', 'a', 's', 'k', 'T', 'i', 'm', 'e', 'r']

/-- A block as a completed thread leaves it (both semaphores live, completion posted,
exit data `7`) whose magic has been zeroed. -/
def corruptedWorld : World :=
  { emptyWorld with
    thread := { VCOS_THREAD_T.zero with
                magic := 0, exit_data := 7, wait := some 1, suspend := some 0 } }

/-- The world right after a successful `vcos_thread_create` of thread `"worker"` with a
function that calls `vcos_thread_exit(9)` and returns `42`, argument `5`. -/
def runningWorld : World :=
  ((vcos_thread_create sampleConfig (some workerName) none
      (some (exits_then_returns [9] 42)) 5).run emptyWorld).world

/-! ## Evaluation lemmas -/

@[simp] theorem M.run_eq {α : Type} (m : M α) (w : World) : m.run w = m w := rfl

@[simp] theorem M.pure_apply {α : Type} (a : α) (w : World) :
    (Pure.pure a : M α) w = .ok a w := rfl

@[simp] theorem M.bind_apply {α β : Type} (m : M α) (f : α → M β) (w : World) :
    (m >>= f) w = match m w with
      | .ok a w1 => f a w1
      | .stop r w1 => .stop r w1 := rfl

@[simp] theorem emit_apply (e : Effect) (w : World) :
    emit e w = .ok () { w with trace := w.trace ++ [e] } := rfl

@[simp] theorem getThread_apply (w : World) : getThread w = .ok w.thread w := rfl

@[simp] theorem getWorld_apply (w : World) : getWorld w = .ok w w := rfl

@[simp] theorem modifyThread_apply (f : VCOS_THREAD_T → VCOS_THREAD_T) (w : World) :
    modifyThread f w = .ok () { w with thread := f w.thread } := rfl

@[simp] theorem halt_apply {α : Type} (r : Stop) (w : World) :
    (halt r : M α) w = .stop r w := rfl

/-! ## What each function does on its main path -/

theorem create_null (cfg : Config) (w : World) (attrs : Option VCOS_THREAD_ATTR_T)
    (entry : Option VCOS_THREAD_ENTRY_FN_T) (arg : Ptr) :
    vcos_thread_create cfg none attrs entry arg w =
      .stop .null_deref
        { w with thread := { VCOS_THREAD_T.zero with magic := cfg.VCOS_THREAD_MAGIC } } := by
  simp [vcos_thread_create, strlcpy]

theorem create_ok (cfg : Config) (w : World) (n : CString)
    (attrs : Option VCOS_THREAD_ATTR_T) (entry : Option VCOS_THREAD_ENTRY_FN_T) (arg : Ptr)
    (hw : cfg.semaphore_create .wait = VCOS_SUCCESS)
    (hs : cfg.semaphore_create .suspend = VCOS_SUCCESS) (hk : cfg.kproc_create = 0) :
    vcos_thread_create cfg (some n) attrs entry arg w =
      .ok VCOS_SUCCESS
        { w with
          thread :=
            { VCOS_THREAD_T.zero with
              magic := cfg.VCOS_THREAD_MAGIC
              name := stored_name cfg n
              legacy := match attrs with
                        | some a => a.legacy
                        | none => 0
              entry := entry
              arg := arg
              wait := some 0
              suspend := some 0
              timer := some ⟨stored_name cfg n, 0, 0⟩
              proc := cfg.newp }
          trace := w.trace ++
            [.semaphore_create .wait VCOS_SUCCESS, .semaphore_create .suspend VCOS_SUCCESS,
             .timer_create (stored_name cfg n) 0 0, .kproc_create n 0] } := by
  simp [vcos_thread_create, strlcpy, vcos_semaphore_create, vcos_timer_create, kproc_create,
    hw, hs, hk, setSem, VCOS_THREAD_T.zero, stored_name]

theorem vcos_thread_exit_apply (cfg : Config) (p : Ptr) (w : World)
    (hc : w.current = .target) (hm : w.thread.magic = cfg.VCOS_THREAD_MAGIC) :
    vcos_thread_exit cfg p w =
      .ok () { w with thread := { w.thread with exit_data := p }
                      trace := w.trace ++ [.thread_exit_store p] } := by
  simp [vcos_thread_exit, vcos_thread_current, vcos_assert, hc, hm]

theorem run_exits_apply (cfg : Config) (ps : List Ptr) :
    ∀ w : World, w.current = .target → w.thread.magic = cfg.VCOS_THREAD_MAGIC →
      run_exits cfg ps w =
        .ok () { w with thread := { w.thread with
                                    exit_data := ps.foldl (fun _ p => p) w.thread.exit_data }
                        trace := w.trace ++ ps.map Effect.thread_exit_store } := by
  induction ps with
  | nil => intro w _ _; simp [run_exits]
  | cons p ps ih =>
    intro w hc hm
    simp [run_exits, vcos_thread_exit_apply cfg p w hc hm]
    rw [ih]
    · simp
    · exact hc
    · exact hm

theorem wrapper_ok (cfg : Config) (w : World) (f : VCOS_THREAD_ENTRY_FN_T) (c : Nat)
    (hm : w.thread.magic = cfg.VCOS_THREAD_MAGIC) (he : w.thread.entry = some f)
    (hw : w.thread.wait = some c) :
    vcos_thread_wrapper cfg w =
      .ok () { w with
        thread := { w.thread with
                    proc := cfg.curproc
                    exit_data := if w.thread.legacy ≠ 0 then 0 else (entry_run w.thread f).ret
                    wait := some (c + 1) }
        current := .null
        trace := w.trace ++ [Effect.add_thread]
          ++ (if cfg.VCOS_WANT_TLS_EMULATION then [Effect.tls_thread_register] else [])
          ++ [Effect.call_entry (if w.thread.legacy ≠ 0 then some 0 else none) w.thread.arg]
          ++ (entry_run w.thread f).exits.map Effect.thread_exit_store
          ++ [Effect.entry_returned (entry_run w.thread f).ret,
              Effect.store_exit_data
                (if w.thread.legacy ≠ 0 then 0 else (entry_run w.thread f).ret),
              Effect.remove_thread,
              Effect.semaphore_post .wait] } := by
  by_cases hl : w.thread.legacy = 0 <;> by_cases ht : cfg.VCOS_WANT_TLS_EMULATION = true <;>
    simp [vcos_thread_wrapper, vcos_assert, hm, he, hw, hl, ht, vcos_add_thread,
      vcos_tls_thread_register, call_entry, vcos_remove_thread, vcos_semaphore_post,
      run_exits_apply, getSem, setSem, entry_run]

theorem join_ok (cfg : Config) (w : World) (pData : Ref) (c d : Nat)
    (hm : w.thread.magic = cfg.VCOS_THREAD_MAGIC)
    (hw : w.thread.wait = some (c + 1)) (hs : w.thread.suspend = some d) :
    vcos_thread_join cfg .target pData w =
      .ok () { w with
        thread := { w.thread with joined := 1, wait := none, suspend := none }
        pData := match pData with
                 | .null => w.pData
                 | .target => w.thread.exit_data
        trace := w.trace ++ [Effect.semaphore_wait .wait]
                  ++ (if w.thread.stack ≠ 0 then [Effect.free w.thread.stack] else [])
                  ++ [Effect.semaphore_delete .wait, Effect.semaphore_delete .suspend] } := by
  cases pData <;> by_cases hst : w.thread.stack = 0 <;>
    simp [vcos_thread_join, vcos_assert, hm, hw, hs, hst, vcos_semaphore_wait,
      vcos_semaphore_delete, vcos_free, getSem, setSem]

theorem cycle_ok (cfg : Config) (w : World) (n : CString)
    (attrs : Option VCOS_THREAD_ATTR_T) (f : VCOS_THREAD_ENTRY_FN_T) (arg : Ptr) (pData : Ref)
    (lg : Int) (hlg : lg = match attrs with
                          | some a => a.legacy
                          | none => 0)
    (hw : cfg.semaphore_create .wait = VCOS_SUCCESS)
    (hs : cfg.semaphore_create .suspend = VCOS_SUCCESS) (hk : cfg.kproc_create = 0) :
    create_run_join cfg (some n) attrs (some f) arg pData w =
      .ok VCOS_SUCCESS
        { w with
          thread :=
            { VCOS_THREAD_T.zero with
              magic := cfg.VCOS_THREAD_MAGIC
              name := stored_name cfg n
              legacy := lg
              entry := some f
              arg := arg
              exit_data := if lg ≠ 0 then 0 else (f.modern arg).ret
              proc := cfg.curproc
              joined := 1
              wait := none
              suspend := none
              timer := some ⟨stored_name cfg n, 0, 0⟩ }
          current := .null
          pData := match pData with
                   | .null => w.pData
                   | .target => if lg ≠ 0 then 0 else (f.modern arg).ret
          trace := w.trace ++
            [.semaphore_create .wait VCOS_SUCCESS, .semaphore_create .suspend VCOS_SUCCESS,
             .timer_create (stored_name cfg n) 0 0, .kproc_create n 0]
            ++ [Effect.add_thread]
            ++ (if cfg.VCOS_WANT_TLS_EMULATION then [Effect.tls_thread_register] else [])
            ++ [Effect.call_entry (if lg ≠ 0 then some 0 else none) arg]
            ++ (if lg ≠ 0 then f.legacy 0 arg else f.modern arg).exits.map
                 Effect.thread_exit_store
            ++ [Effect.entry_returned (if lg ≠ 0 then f.legacy 0 arg else f.modern arg).ret,
                Effect.store_exit_data (if lg ≠ 0 then 0 else (f.modern arg).ret),
                Effect.remove_thread,
                Effect.semaphore_post .wait]
            ++ [Effect.semaphore_wait .wait, Effect.semaphore_delete .wait,
                Effect.semaphore_delete .suspend] } := by
  subst hlg
  simp only [create_run_join, M.bind_apply, create_ok cfg w n attrs (some f) arg hw hs hk]
  rw [wrapper_ok cfg _ f 0 rfl rfl rfl]
  simp only []
  rw [join_ok cfg _ pData 0 0 rfl rfl rfl]
  cases pData <;> split_ifs <;> simp_all [entry_run, VCOS_THREAD_T.zero]

/-! ## No function but the trampoline posts the completion semaphore -/

theorem NoPost.pure {α : Type} (a : α) : NoPost (Pure.pure a : M α) := ⟨fun _ => rfl⟩

theorem NoPost.bind {α β : Type} {m : M α} {f : α → M β} (hm : NoPost m)
    (hf : ∀ a, NoPost (f a)) : NoPost (m >>= f) := by
  constructor
  intro w
  have h1 := hm.keeps w
  simp only [M.bind_apply]
  cases h : m w with
  | ok a w1 =>
    rw [h] at h1
    simp only [Res.world] at h1
    simp only [(hf a).keeps w1, h1]
  | stop r w1 =>
    rw [h] at h1
    simpa [Res.world] using h1

theorem NoPost.state {α : Type} (a : α) (g : World → World)
    (hg : ∀ w, (g w).trace = w.trace) : NoPost (fun w => Res.ok a (g w)) := by
  constructor
  intro w
  simp [Res.world, hg]

theorem NoPost.emit (e : Effect) (he : e ≠ Effect.semaphore_post .wait) :
    NoPost (emit e) := by
  constructor
  intro w
  simp [Res.world, posts, List.count_append, List.count_cons, he]

theorem NoPost.halt {α : Type} (r : Stop) : NoPost (halt r : M α) := ⟨fun _ => rfl⟩

theorem NoPost.getThread : NoPost getThread := ⟨fun _ => rfl⟩

theorem NoPost.modifyThread (f : VCOS_THREAD_T → VCOS_THREAD_T) :
    NoPost (modifyThread f) := ⟨fun _ => rfl⟩

theorem NoPost.vcos_thread_current : NoPost vcos_thread_current := ⟨fun _ => rfl⟩

theorem NoPost.vcos_assert (cfg : Config) (c : Bool) : NoPost (vcos_assert cfg c) := by
  constructor
  intro w
  unfold Vcos.vcos_assert
  split
  · rfl
  · split <;> rfl

theorem NoPost.vcos_thread_join (cfg : Config) (th pd : Ref) :
    NoPost (vcos_thread_join cfg th pd) := by
  unfold Vcos.vcos_thread_join vcos_semaphore_wait vcos_semaphore_delete vcos_free
  repeat' first
    | exact NoPost.pure _
    | exact NoPost.halt _
    | exact NoPost.getThread
    | exact NoPost.modifyThread _
    | exact NoPost.vcos_assert _ _
    | exact NoPost.emit _ (by simp)
    | exact NoPost.state _ _ (fun _ => rfl)
    | apply NoPost.bind
    | intro _
    | split

theorem NoPost.vcos_thread_exit (cfg : Config) (p : Ptr) :
    NoPost (vcos_thread_exit cfg p) := by
  unfold Vcos.vcos_thread_exit
  repeat' first
    | exact NoPost.pure _
    | exact NoPost.halt _
    | exact NoPost.getThread
    | exact NoPost.vcos_thread_current
    | exact NoPost.modifyThread _
    | exact NoPost.vcos_assert _ _
    | exact NoPost.emit _ (by simp)
    | apply NoPost.bind
    | intro _
    | split

theorem NoPost.vcos_thread_create (cfg : Config) (name : Option CString)
    (attrs : Option VCOS_THREAD_ATTR_T) (entry : Option VCOS_THREAD_ENTRY_FN_T) (arg : Ptr) :
    NoPost (vcos_thread_create cfg name attrs entry arg) := by
  unfold Vcos.vcos_thread_create strlcpy vcos_semaphore_create vcos_timer_create kproc_create
  repeat' first
    | exact NoPost.pure _
    | exact NoPost.halt _
    | exact NoPost.getThread
    | exact NoPost.modifyThread _
    | exact NoPost.vcos_assert _ _
    | exact NoPost.emit _ (by simp)
    | apply NoPost.bind
    | intro _
    | split

/-! ## The once guard, call by call -/

theorem vcos_once_first (init : Nat → Nat) (w : World) (h0 : w.once_control = 0)
    (hfree : w.vcos_mtx = false) :
    vcos_once init w =
      .ok VCOS_SUCCESS
        { w with once_control := 1, user := init w.user
                 trace := w.trace ++
                   [Effect.mtx_lock, Effect.init_routine true, Effect.mtx_unlock] } := by
  simp [vcos_once, vcos_global_lock, vcos_global_unlock, mtx_lock, mtx_unlock, h0, hfree]

theorem vcos_once_later (init : Nat → Nat) (w : World) (h : w.once_control ≠ 0) :
    vcos_once init w = .ok VCOS_SUCCESS w := by
  simp [vcos_once, h]

theorem once_calls_later (init : Nat → Nat) (k : Nat) :
    ∀ w : World, w.once_control ≠ 0 →
      once_calls init k w = .ok (List.replicate k VCOS_SUCCESS) w := by
  induction k with
  | zero => intro w _; rfl
  | succ k ih =>
    intro w h
    simp [once_calls, vcos_once_later init w h, ih w h, List.replicate_succ]

theorem once_calls_first (init : Nat → Nat) (k : Nat) (w : World) (h0 : w.once_control = 0)
    (hfree : w.vcos_mtx = false) :
    once_calls init (k + 1) w =
      .ok (List.replicate (k + 1) VCOS_SUCCESS)
        { w with once_control := 1, user := init w.user
                 trace := w.trace ++
                   [Effect.mtx_lock, Effect.init_routine true, Effect.mtx_unlock] } := by
  simp only [once_calls, M.bind_apply, vcos_once_first init w h0 hfree]
  rw [once_calls_later init k _ (by simp)]
  simp [List.replicate_succ]

/-! ## The claims -/

/-- Claim C1: for a non-null name, a modern-convention thread function `f` (`attrs` null
or `attrs.legacy = 0`) and any `arg`, when both semaphore creations and the native
thread creation succeed, `vcos_thread_create`, then the trampoline, then
`vcos_thread_join` with a non-null `pData` all return, and `*pData` holds exactly the
value `f` returned for `arg`, whatever else `f` did. -/
theorem create_join_returns_entry_value (cfg : Config) (w : World) (n : CString)
    (attrs : Option VCOS_THREAD_ATTR_T) (f : VCOS_THREAD_ENTRY_FN_T) (arg : Ptr)
    (hattrs : attrs = none ∨ ∃ a, attrs = some a ∧ a.legacy = 0)
    (hw : cfg.semaphore_create .wait = VCOS_SUCCESS)
    (hs : cfg.semaphore_create .suspend = VCOS_SUCCESS) (hk : cfg.kproc_create = 0) :
    ∃ w3, (create_run_join cfg (some n) attrs (some f) arg .target).run w
        = .ok VCOS_SUCCESS w3
      ∧ w3.pData = (f.modern arg).ret
      ∧ Effect.call_entry none arg ∈ w3.trace := by
  have key : ∀ at2 : Option VCOS_THREAD_ATTR_T,
      (0 : Int) = (match at2 with
        | some a => a.legacy
        | none => 0) →
      ∃ w3, (create_run_join cfg (some n) at2 (some f) arg .target).run w
          = .ok VCOS_SUCCESS w3
        ∧ w3.pData = (f.modern arg).ret
        ∧ Effect.call_entry none arg ∈ w3.trace := by
    intro at2 hlg
    rw [M.run_eq, cycle_ok cfg w n at2 f arg .target 0 hlg hw hs hk]
    refine ⟨_, rfl, ?_, ?_⟩ <;> simp
  rcases hattrs with h | ⟨a, h, ha⟩
  · subst h
    exact key none rfl
  · subst h
    exact key (some a) ha.symm

theorem create_join_returns_entry_value_witness :
    (sampleConfig.semaphore_create .wait = VCOS_SUCCESS
      ∧ sampleConfig.semaphore_create .suspend = VCOS_SUCCESS
      ∧ sampleConfig.kproc_create = 0)
    ∧ ∃ w3, (create_run_join sampleConfig (some workerName) (some default_attrs)
          (some (exits_then_returns [9] 42)) 5 .target).run emptyWorld
        = .ok VCOS_SUCCESS w3
      ∧ w3.pData = ((exits_then_returns [9] 42).modern 5).ret
      ∧ Effect.call_entry none 5 ∈ w3.trace :=
  ⟨⟨rfl, rfl, rfl⟩,
   create_join_returns_entry_value sampleConfig emptyWorld workerName (some default_attrs)
     (exits_then_returns [9] 42) 5 (Or.inr ⟨default_attrs, rfl, rfl⟩) rfl rfl rfl⟩

/-- Claim C2, evaluated on the code: the thread function calls
`vcos_thread_exit(0x1234)` and returns `0x5678` at once; the exit store happens, the
trampoline then stores the return value over it, and the join writes `0x5678`, not the
payload `0x1234`, into `*pData`. -/
theorem exit_payload_overwritten_by_return_value :
    ((create_run_join sampleConfig (some workerName) none
        (some (exits_then_returns [0x1234] 0x5678)) 0 .target).run emptyWorld).value
      = some VCOS_SUCCESS
    ∧ ((create_run_join sampleConfig (some workerName) none
        (some (exits_then_returns [0x1234] 0x5678)) 0 .target).run emptyWorld).world.pData
      = 0x5678
    ∧ ((create_run_join sampleConfig (some workerName) none
        (some (exits_then_returns [0x1234] 0x5678)) 0 .target).run emptyWorld).world.trace
      = [.semaphore_create .wait VCOS_SUCCESS, .semaphore_create .suspend VCOS_SUCCESS,
         .timer_create workerName 0 0, .kproc_create workerName 0,
         .add_thread, .call_entry none 0, .thread_exit_store 0x1234,
         .entry_returned 0x5678, .store_exit_data 0x5678, .remove_thread,
         .semaphore_post .wait, .semaphore_wait .wait, .semaphore_delete .wait,
         .semaphore_delete .suspend] := by
  rw [M.run_eq, cycle_ok sampleConfig emptyWorld workerName none
    (exits_then_returns [0x1234] 0x5678) 0 .target 0 rfl rfl rfl rfl]
  refine ⟨rfl, rfl, ?_⟩
  decide

/-- Claim C3: for a thread created with `attrs.legacy` non-zero, the thread function is
called once, as `fn(0, arg)` with the stored argument, and after the trampoline the join
writes `NULL` into `*pData`, whatever the function did (its calls of `vcos_thread_exit`
included) and whatever it would hand back read as a modern entry. -/
theorem legacy_join_payload_null (cfg : Config) (w : World) (n : CString)
    (a : VCOS_THREAD_ATTR_T) (f : VCOS_THREAD_ENTRY_FN_T) (arg : Ptr)
    (hleg : a.legacy ≠ 0)
    (hw : cfg.semaphore_create .wait = VCOS_SUCCESS)
    (hs : cfg.semaphore_create .suspend = VCOS_SUCCESS) (hk : cfg.kproc_create = 0) :
    ∃ w3, (create_run_join cfg (some n) (some a) (some f) arg .target).run w
        = .ok VCOS_SUCCESS w3
      ∧ w3.pData = 0
      ∧ w3.thread.exit_data = 0
      ∧ w3.trace = w.trace ++
          [.semaphore_create .wait VCOS_SUCCESS, .semaphore_create .suspend VCOS_SUCCESS,
           .timer_create (stored_name cfg n) 0 0, .kproc_create n 0, .add_thread]
          ++ (if cfg.VCOS_WANT_TLS_EMULATION then [Effect.tls_thread_register] else [])
          ++ [Effect.call_entry (some 0) arg]
          ++ (f.legacy 0 arg).exits.map Effect.thread_exit_store
          ++ [.entry_returned (f.legacy 0 arg).ret, .store_exit_data 0, .remove_thread,
              .semaphore_post .wait, .semaphore_wait .wait, .semaphore_delete .wait,
              .semaphore_delete .suspend] := by
  rw [M.run_eq, cycle_ok cfg w n (some a) f arg .target a.legacy rfl hw hs hk]
  refine ⟨_, rfl, ?_, ?_, ?_⟩ <;> simp [hleg]

theorem legacy_join_payload_null_witness :
    ((⟨1, 4096⟩ : VCOS_THREAD_ATTR_T).legacy ≠ 0
      ∧ sampleConfig.semaphore_create .wait = VCOS_SUCCESS
      ∧ sampleConfig.semaphore_create .suspend = VCOS_SUCCESS
      ∧ sampleConfig.kproc_create = 0)
    ∧ ∃ w3, (create_run_join sampleConfig (some workerName) (some ⟨1, 4096⟩)
          (some (exits_then_returns [0x1234] 0x5678)) 5 .target).run emptyWorld
        = .ok VCOS_SUCCESS w3
      ∧ w3.pData = 0
      ∧ w3.thread.exit_data = 0
      ∧ w3.trace = emptyWorld.trace ++
          [.semaphore_create .wait VCOS_SUCCESS, .semaphore_create .suspend VCOS_SUCCESS,
           .timer_create (stored_name sampleConfig workerName) 0 0,
           .kproc_create workerName 0, .add_thread]
          ++ (if sampleConfig.VCOS_WANT_TLS_EMULATION then [Effect.tls_thread_register]
              else [])
          ++ [Effect.call_entry (some 0) 5]
          ++ ((exits_then_returns [0x1234] 0x5678).legacy 0 5).exits.map
               Effect.thread_exit_store
          ++ [.entry_returned ((exits_then_returns [0x1234] 0x5678).legacy 0 5).ret,
              .store_exit_data 0, .remove_thread,
              .semaphore_post .wait, .semaphore_wait .wait, .semaphore_delete .wait,
              .semaphore_delete .suspend] :=
  ⟨⟨by decide, rfl, rfl, rfl⟩,
   legacy_join_payload_null sampleConfig emptyWorld workerName ⟨1, 4096⟩
     (exits_then_returns [0x1234] 0x5678) 5 (by decide) rfl rfl rfl⟩

/-- Claim C4: in a sequential run that starts with the flag at `0` and the global lock
free, for every `n ≥ 1` the first `n` calls of `vcos_once` all return `VCOS_SUCCESS`
and leave the flag at `1`, the lock free and `init_routine` applied exactly once, inside
the first call between the lock and the unlock (the state after `n` calls is the state
after one); and a call on any non-zero flag returns `VCOS_SUCCESS` and changes nothing:
no `init_routine`, no lock, the flag as it was. -/
theorem vcos_once_exactly_once (init : Nat → Nat) (w : World) (n : Nat)
    (h0 : w.once_control = 0) (hfree : w.vcos_mtx = false) (hn : 1 ≤ n) :
    (once_calls init n).run w =
        .ok (List.replicate n VCOS_SUCCESS)
          { w with once_control := 1, user := init w.user
                   trace := w.trace ++
                     [Effect.mtx_lock, Effect.init_routine true, Effect.mtx_unlock] }
    ∧ (∀ v : World, v.once_control ≠ 0 → (vcos_once init).run v = .ok VCOS_SUCCESS v) := by
  constructor
  · obtain ⟨j, rfl⟩ : ∃ j, n = j + 1 := ⟨n - 1, by omega⟩
    rw [M.run_eq]
    exact once_calls_first init j w h0 hfree
  · intro v hv
    rw [M.run_eq]
    exact vcos_once_later init v hv

theorem vcos_once_exactly_once_witness :
    (emptyWorld.once_control = 0 ∧ emptyWorld.vcos_mtx = false ∧ 1 ≤ 3)
    ∧ (once_calls (fun u => u + 10) 3).run emptyWorld =
        .ok (List.replicate 3 VCOS_SUCCESS)
          { emptyWorld with once_control := 1, user := (fun u => u + 10) emptyWorld.user
                            trace := emptyWorld.trace ++
                              [Effect.mtx_lock, Effect.init_routine true,
                               Effect.mtx_unlock] }
    ∧ (∀ v : World, v.once_control ≠ 0 →
        (vcos_once (fun u => u + 10)).run v = .ok VCOS_SUCCESS v) :=
  ⟨⟨rfl, rfl, by decide⟩,
   vcos_once_exactly_once (fun u => u + 10) emptyWorld 3 rfl rfl (by decide)⟩

/-- Claim C5: with a non-null name, when the creation of the completion semaphore, or
(the first having succeeded) of the suspend semaphore, fails with a status `st` other
than `VCOS_SUCCESS`, `vcos_thread_create` returns exactly `st`; the only calls it has
made are the semaphore creations, so there is no `kproc_create`, no timer and no
semaphore deletion; and after a failure of the second creation the completion
semaphore is still live. -/
theorem vcos_thread_create_semaphore_failure (cfg : Config) (w : World) (n : CString)
    (attrs : Option VCOS_THREAD_ATTR_T) (entry : Option VCOS_THREAD_ENTRY_FN_T) (arg : Ptr)
    (st : VCOS_STATUS_T) (hst : st ≠ VCOS_SUCCESS)
    (hfail : cfg.semaphore_create .wait = st ∨
      (cfg.semaphore_create .wait = VCOS_SUCCESS ∧ cfg.semaphore_create .suspend = st)) :
    ∃ w1, (vcos_thread_create cfg (some n) attrs entry arg).run w = .ok st w1
      ∧ w1.trace = w.trace ++
          (if cfg.semaphore_create .wait = VCOS_SUCCESS then
            [Effect.semaphore_create .wait VCOS_SUCCESS, Effect.semaphore_create .suspend st]
           else [Effect.semaphore_create .wait st])
      ∧ w1.thread.timer = none
      ∧ w1.thread.wait = (if cfg.semaphore_create .wait = VCOS_SUCCESS then some 0 else none)
      ∧ w1.thread.suspend = none
      ∧ w1.thread.proc = 0 := by
  rcases hfail with h | ⟨h1, h2⟩
  · subst h
    simp [vcos_thread_create, strlcpy, vcos_semaphore_create, hst, VCOS_THREAD_T.zero]
  · subst h2
    simp [vcos_thread_create, strlcpy, vcos_semaphore_create, hst, h1, VCOS_THREAD_T.zero,
      setSem]

theorem vcos_thread_create_semaphore_failure_witness :
    (VCOS_STATUS_T.other 7 ≠ VCOS_SUCCESS
      ∧ (failingConfig .suspend (.other 7)).semaphore_create .wait = VCOS_SUCCESS
      ∧ (failingConfig .suspend (.other 7)).semaphore_create .suspend = .other 7)
    ∧ ∃ w1, (vcos_thread_create (failingConfig .suspend (.other 7)) (some workerName) none
          (some (exits_then_returns [] 0)) 0).run emptyWorld = .ok (.other 7) w1
      ∧ w1.trace = emptyWorld.trace ++
          (if (failingConfig .suspend (.other 7)).semaphore_create .wait = VCOS_SUCCESS then
            [Effect.semaphore_create .wait VCOS_SUCCESS,
             Effect.semaphore_create .suspend (.other 7)]
           else [Effect.semaphore_create .wait (.other 7)])
      ∧ w1.thread.timer = none
      ∧ w1.thread.wait =
          (if (failingConfig .suspend (.other 7)).semaphore_create .wait = VCOS_SUCCESS
           then some 0 else none)
      ∧ w1.thread.suspend = none
      ∧ w1.thread.proc = 0 :=
  ⟨⟨by decide, rfl, rfl⟩,
   vcos_thread_create_semaphore_failure (failingConfig .suspend (.other 7)) emptyWorld
     workerName none (some (exits_then_returns [] 0)) 0 (.other 7) (by decide)
     (Or.inr ⟨rfl, rfl⟩)⟩

/-- Claim C6, evaluated on the code: `vcos_thread_create(thread, NULL, NULL, entry, 0)`.
Whether failed assertions halt or not, the run stops in `strlcpy`, which reads
through the null `name` before the `if (!name)` test is reached; nothing is returned,
so `VCOS_EINVAL` is not, and no semaphore, timer or native thread has been created. -/
theorem vcos_thread_create_null_name_dereferenced :
    ((vcos_thread_create sampleConfig none none (some (exits_then_returns [] 0)) 0).run
        emptyWorld).stopped = some Stop.null_deref
    ∧ ((vcos_thread_create sampleConfig none none (some (exits_then_returns [] 0)) 0).run
        emptyWorld).value = none
    ∧ ((vcos_thread_create sampleConfig none none (some (exits_then_returns [] 0)) 0).run
        emptyWorld).world.trace = []
    ∧ ((vcos_thread_create releaseConfig none none (some (exits_then_returns [] 0)) 0).run
        emptyWorld).stopped = some Stop.null_deref
    ∧ ((vcos_thread_create releaseConfig none none (some (exits_then_returns [] 0)) 0).run
        emptyWorld).value = none
    ∧ ((vcos_thread_create releaseConfig none none (some (exits_then_returns [] 0)) 0).run
        emptyWorld).world.trace = [] := by
  simp only [M.run_eq, create_null]
  exact ⟨rfl, rfl, rfl, rfl, rfl, rfl⟩

/-- Claim C7 as stated fails: after a successful create, the trampoline and the join
(thread `"worker"`, a function that returns `0`), the timer that create made is still
live in the block, and the whole cycle has made no call on it but its creation. -/
theorem timer_survives_join :
    ((create_run_join sampleConfig (some workerName) none
        (some (exits_then_returns [] 0)) 0 .target).run emptyWorld).value
      = some VCOS_SUCCESS
    ∧ ((create_run_join sampleConfig (some workerName) none
        (some (exits_then_returns [] 0)) 0 .target).run emptyWorld).world.thread.timer
      = some ⟨workerName, 0, 0⟩
    ∧ ((create_run_join sampleConfig (some workerName) none
        (some (exits_then_returns [] 0)) 0 .target).run emptyWorld).world.trace
      = [.semaphore_create .wait VCOS_SUCCESS, .semaphore_create .suspend VCOS_SUCCESS,
         .timer_create workerName 0 0, .kproc_create workerName 0,
         .add_thread, .call_entry none 0, .entry_returned 0, .store_exit_data 0,
         .remove_thread, .semaphore_post .wait, .semaphore_wait .wait,
         .semaphore_delete .wait, .semaphore_delete .suspend] := by
  rw [M.run_eq, cycle_ok sampleConfig emptyWorld workerName none
    (exits_then_returns [] 0) 0 .target 0 rfl rfl rfl rfl]
  refine ⟨rfl, ?_, ?_⟩ <;> decide

/-- Claim C7, amended: after a successful create, the trampoline and the join, both
semaphores that create made for the block (completion and suspend) have been deleted
by the join, each created once and deleted once in the cycle, and no semaphore of the
block is live; the timer that create made is still in the block, not deleted. -/
theorem create_join_semaphore_balance (cfg : Config) (w : World) (n : CString)
    (attrs : Option VCOS_THREAD_ATTR_T) (f : VCOS_THREAD_ENTRY_FN_T) (arg : Ptr) (pData : Ref)
    (hw : cfg.semaphore_create .wait = VCOS_SUCCESS)
    (hs : cfg.semaphore_create .suspend = VCOS_SUCCESS) (hk : cfg.kproc_create = 0) :
    ∃ w3, (create_run_join cfg (some n) attrs (some f) arg pData).run w
        = .ok VCOS_SUCCESS w3
      ∧ w3.thread.wait = none
      ∧ w3.thread.suspend = none
      ∧ (∀ s : SemField,
          (w3.trace.drop w.trace.length).count (Effect.semaphore_create s VCOS_SUCCESS) = 1
          ∧ (w3.trace.drop w.trace.length).count (Effect.semaphore_delete s) = 1)
      ∧ w3.thread.timer = some ⟨stored_name cfg n, 0, 0⟩ := by
  rw [M.run_eq, cycle_ok cfg w n attrs f arg pData _ rfl hw hs hk]
  refine ⟨_, rfl, rfl, rfl, ?_, rfl⟩
  intro s
  simp only [List.append_assoc, List.drop_left]
  cases s <;> by_cases ht : cfg.VCOS_WANT_TLS_EMULATION = true <;>
    simp [ht, List.count_append, List.count_cons, List.count_eq_zero]

theorem create_join_semaphore_balance_witness :
    (sampleConfig.semaphore_create .wait = VCOS_SUCCESS
      ∧ sampleConfig.semaphore_create .suspend = VCOS_SUCCESS
      ∧ sampleConfig.kproc_create = 0)
    ∧ ∃ w3, (create_run_join sampleConfig (some workerName) none
          (some (exits_then_returns [9] 42)) 5 .null).run emptyWorld
        = .ok VCOS_SUCCESS w3
      ∧ w3.thread.wait = none
      ∧ w3.thread.suspend = none
      ∧ (∀ s : SemField,
          (w3.trace.drop emptyWorld.trace.length).count
              (Effect.semaphore_create s VCOS_SUCCESS) = 1
          ∧ (w3.trace.drop emptyWorld.trace.length).count (Effect.semaphore_delete s) = 1)
      ∧ w3.thread.timer = some ⟨stored_name sampleConfig workerName, 0, 0⟩ :=
  ⟨⟨rfl, rfl, rfl⟩,
   create_join_semaphore_balance sampleConfig emptyWorld workerName none
     (exits_then_returns [9] 42) 5 .null rfl rfl rfl⟩

/-- Claim C8 as stated fails: in a build whose failed assertions do not stop the run,
`vcos_thread_join` on a block with zeroed magic goes on as if the block were valid.
On a block that is otherwise as a finished thread left it, it sets `joined`, waits on
the completion semaphore, writes the exit data `7` into `*pData` and deletes both
semaphores; on fully zeroed storage it sets `joined` and goes on to the wait. -/
theorem join_ignores_bad_magic_without_halting_asserts :
    corruptedWorld.thread.magic ≠ releaseConfig.VCOS_THREAD_MAGIC
    ∧ corruptedWorld.thread.joined = 0
    ∧ corruptedWorld.pData = 0
    ∧ ((vcos_thread_join releaseConfig .target .target).run corruptedWorld).stopped = none
    ∧ ((vcos_thread_join releaseConfig .target .target).run corruptedWorld).world.thread.joined
        = 1
    ∧ ((vcos_thread_join releaseConfig .target .target).run corruptedWorld).world.pData = 7
    ∧ ((vcos_thread_join releaseConfig .target .target).run corruptedWorld).world.trace
        = [.semaphore_wait .wait, .semaphore_delete .wait, .semaphore_delete .suspend]
    ∧ emptyWorld.thread.magic ≠ releaseConfig.VCOS_THREAD_MAGIC
    ∧ ((vcos_thread_join releaseConfig .target .target).run emptyWorld).world.thread.joined
        = 1
    ∧ ((vcos_thread_join releaseConfig .target .target).run emptyWorld).world.trace
        = [.semaphore_wait .wait] := by
  refine ⟨by decide, rfl, rfl, rfl, rfl, rfl, ?_, by decide, rfl, ?_⟩ <;> decide

/-- Claim C8, amended: in a build whose failed assertions stop the run,
`vcos_thread_join` on a block whose magic differs from `VCOS_THREAD_MAGIC` stops at the
assertion with the world untouched: `joined` is not set, no semaphore is waited on or
deleted, `*pData` is not written. -/
theorem join_bad_magic_stops_at_assertion (cfg : Config) (w : World) (pData : Ref)
    (hhalt : cfg.asserts_halt = true) (hm : w.thread.magic ≠ cfg.VCOS_THREAD_MAGIC) :
    (vcos_thread_join cfg .target pData).run w = .stop .assert_failed w := by
  simp [vcos_thread_join, vcos_assert, hhalt, hm]

theorem join_bad_magic_stops_at_assertion_witness :
    (sampleConfig.asserts_halt = true
      ∧ corruptedWorld.thread.magic ≠ sampleConfig.VCOS_THREAD_MAGIC)
    ∧ (vcos_thread_join sampleConfig .target .target).run corruptedWorld
        = .stop .assert_failed corruptedWorld :=
  ⟨⟨rfl, by decide⟩,
   join_bad_magic_stops_at_assertion sampleConfig corruptedWorld .target rfl (by decide)⟩

/-- Claim C9: on a block with valid magic, a thread function and a live completion
semaphore, one run of the trampoline returns and adds to the trace, in this order: the
registration `vcos_add_thread` (then the TLS registration when configured), the call
of the thread function, what that function does, its return, the store of the exit
data, the deregistration `vcos_remove_thread`, and last the post of the completion
semaphore; that post occurs exactly once in the run.  And `vcos_thread_create`,
`vcos_thread_exit` and `vcos_thread_join` add no post of the completion semaphore,
on any input and however they end. -/
theorem vcos_thread_wrapper_effect_sequence (cfg : Config) (w : World)
    (f : VCOS_THREAD_ENTRY_FN_T) (c : Nat)
    (hm : w.thread.magic = cfg.VCOS_THREAD_MAGIC) (he : w.thread.entry = some f)
    (hw : w.thread.wait = some c) :
    (∃ w2, (vcos_thread_wrapper cfg).run w = .ok () w2
      ∧ w2.trace = w.trace ++ [Effect.add_thread]
          ++ (if cfg.VCOS_WANT_TLS_EMULATION then [Effect.tls_thread_register] else [])
          ++ [Effect.call_entry (if w.thread.legacy ≠ 0 then some 0 else none) w.thread.arg]
          ++ (entry_run w.thread f).exits.map Effect.thread_exit_store
          ++ [Effect.entry_returned (entry_run w.thread f).ret,
              Effect.store_exit_data
                (if w.thread.legacy ≠ 0 then 0 else (entry_run w.thread f).ret),
              Effect.remove_thread,
              Effect.semaphore_post .wait]
      ∧ posts (w2.trace.drop w.trace.length) = 1
      ∧ w2.thread.wait = some (c + 1))
    ∧ (∀ (cfg2 : Config) (name : Option CString) (attrs : Option VCOS_THREAD_ATTR_T)
          (entry : Option VCOS_THREAD_ENTRY_FN_T) (arg : Ptr) (v : World),
        posts ((vcos_thread_create cfg2 name attrs entry arg).run v).world.trace
          = posts v.trace)
    ∧ (∀ (cfg2 : Config) (p : Ptr) (v : World),
        posts ((vcos_thread_exit cfg2 p).run v).world.trace = posts v.trace)
    ∧ (∀ (cfg2 : Config) (thread pData : Ref) (v : World),
        posts ((vcos_thread_join cfg2 thread pData).run v).world.trace = posts v.trace) := by
  refine ⟨?_, ?_, ?_, ?_⟩
  · rw [M.run_eq, wrapper_ok cfg w f c hm he hw]
    refine ⟨_, rfl, rfl, ?_, rfl⟩
    simp only [List.append_assoc, List.drop_left, posts]
    by_cases ht : cfg.VCOS_WANT_TLS_EMULATION = true <;>
      simp [ht, List.count_append, List.count_cons, List.count_eq_zero]
  · intro cfg2 name attrs entry arg v
    exact (NoPost.vcos_thread_create cfg2 name attrs entry arg).keeps v
  · intro cfg2 p v
    exact (NoPost.vcos_thread_exit cfg2 p).keeps v
  · intro cfg2 thread pData v
    exact (NoPost.vcos_thread_join cfg2 thread pData).keeps v

theorem vcos_thread_wrapper_effect_sequence_witness :
    (runningWorld.thread.magic = sampleConfig.VCOS_THREAD_MAGIC
      ∧ runningWorld.thread.entry = some (exits_then_returns [9] 42)
      ∧ runningWorld.thread.wait = some 0)
    ∧ (∃ w2, (vcos_thread_wrapper sampleConfig).run runningWorld = .ok () w2
      ∧ w2.trace = runningWorld.trace ++ [Effect.add_thread]
          ++ (if sampleConfig.VCOS_WANT_TLS_EMULATION then [Effect.tls_thread_register]
              else [])
          ++ [Effect.call_entry (if runningWorld.thread.legacy ≠ 0 then some 0 else none)
                runningWorld.thread.arg]
          ++ (entry_run runningWorld.thread (exits_then_returns [9] 42)).exits.map
               Effect.thread_exit_store
          ++ [Effect.entry_returned
                (entry_run runningWorld.thread (exits_then_returns [9] 42)).ret,
              Effect.store_exit_data
                (if runningWorld.thread.legacy ≠ 0 then 0
                 else (entry_run runningWorld.thread (exits_then_returns [9] 42)).ret),
              Effect.remove_thread,
              Effect.semaphore_post .wait]
      ∧ posts (w2.trace.drop runningWorld.trace.length) = 1
      ∧ w2.thread.wait = some (0 + 1))
    ∧ (∀ (cfg2 : Config) (name : Option CString) (attrs : Option VCOS_THREAD_ATTR_T)
          (entry : Option VCOS_THREAD_ENTRY_FN_T) (arg : Ptr) (v : World),
        posts ((vcos_thread_create cfg2 name attrs entry arg).run v).world.trace
          = posts v.trace)
    ∧ (∀ (cfg2 : Config) (p : Ptr) (v : World),
        posts ((vcos_thread_exit cfg2 p).run v).world.trace = posts v.trace)
    ∧ (∀ (cfg2 : Config) (thread pData : Ref) (v : World),
        posts ((vcos_thread_join cfg2 thread pData).run v).world.trace = posts v.trace) :=
  ⟨⟨rfl, rfl, rfl⟩,
   vcos_thread_wrapper_effect_sequence sampleConfig runningWorld
     (exits_then_returns [9] 42) 0 rfl rfl rfl⟩

/-- Claim C10 as stated fails: created under the name `"worker"`, the thread gets its
timer under the name `"worker"`, with no callback and no argument; no timer named
`"TaskTimer"` is created. -/
theorem timer_named_after_thread :
    ((vcos_thread_create sampleConfig (some workerName) none
        (some (exits_then_returns [] 0)) 0).run emptyWorld).value = some VCOS_SUCCESS
    ∧ ((vcos_thread_create sampleConfig (some workerName) none
        (some (exits_then_returns [] 0)) 0).run emptyWorld).world.trace
      = [.semaphore_create .wait VCOS_SUCCESS, .semaphore_create .suspend VCOS_SUCCESS,
         .timer_create workerName 0 0, .kproc_create workerName 0]
    ∧ ((vcos_thread_create sampleConfig (some workerName) none
        (some (exits_then_returns [] 0)) 0).run emptyWorld).world.thread.timer
      = some ⟨workerName, 0, 0⟩
    ∧ workerName ≠ taskTimerName := by
  rw [M.run_eq, create_ok sampleConfig emptyWorld workerName none
    (some (exits_then_returns [] 0)) 0 rfl rfl rfl]
  refine ⟨rfl, ?_, ?_, ?_⟩ <;> decide

/-- Claim C10, amended: for every thread name, when both semaphore creations succeed,
`vcos_thread_create` creates the timer of the block exactly once, under the name stored
in `thread->name` (the `strlcpy` copy of the given name, cut to the size of the array),
with no callback and no callback argument, whether or not `kproc_create` then
succeeds. -/
theorem vcos_thread_create_timer_name (cfg : Config) (w : World) (n : CString)
    (attrs : Option VCOS_THREAD_ATTR_T) (entry : Option VCOS_THREAD_ENTRY_FN_T) (arg : Ptr)
    (hw : cfg.semaphore_create .wait = VCOS_SUCCESS)
    (hs : cfg.semaphore_create .suspend = VCOS_SUCCESS) :
    ((vcos_thread_create cfg (some n) attrs entry arg).run w).world.trace
      = w.trace ++
          [.semaphore_create .wait VCOS_SUCCESS, .semaphore_create .suspend VCOS_SUCCESS,
           .timer_create (stored_name cfg n) 0 0, .kproc_create n cfg.kproc_create]
    ∧ ((vcos_thread_create cfg (some n) attrs entry arg).run w).world.thread.name
      = stored_name cfg n
    ∧ ((vcos_thread_create cfg (some n) attrs entry arg).run w).world.thread.timer
      = some ⟨stored_name cfg n, 0, 0⟩ := by
  by_cases hk : cfg.kproc_create = 0 <;>
    simp [vcos_thread_create, strlcpy, vcos_semaphore_create, vcos_timer_create,
      kproc_create, hw, hs, hk, setSem, VCOS_THREAD_T.zero, stored_name, Res.world]

theorem vcos_thread_create_timer_name_witness :
    (sampleConfig.semaphore_create .wait = VCOS_SUCCESS
      ∧ sampleConfig.semaphore_create .suspend = VCOS_SUCCESS)
    ∧ ((vcos_thread_create sampleConfig (some taskTimerName) none none 0).run
        emptyWorld).world.trace
      = emptyWorld.trace ++
          [.semaphore_create .wait VCOS_SUCCESS, .semaphore_create .suspend VCOS_SUCCESS,
           .timer_create (stored_name sampleConfig taskTimerName) 0 0,
           .kproc_create taskTimerName sampleConfig.kproc_create]
    ∧ ((vcos_thread_create sampleConfig (some taskTimerName) none none 0).run
        emptyWorld).world.thread.name = stored_name sampleConfig taskTimerName
    ∧ ((vcos_thread_create sampleConfig (some taskTimerName) none none 0).run
        emptyWorld).world.thread.timer
      = some ⟨stored_name sampleConfig taskTimerName, 0, 0⟩ :=
  ⟨⟨rfl, rfl⟩,
   vcos_thread_create_timer_name sampleConfig emptyWorld taskTimerName none none 0 rfl rfl⟩

end Vcos
